import Mathlib

/-!
Verification of the round state machine and response-parsing contract of the
Rock-Paper-Scissors-Plus AI-Judge program (src/ai-judge-assignment/main.py).

The Python source is shallowly embedded: strings are handled through their
character lists, Python `str.strip` / `str.split` / substring tests / the two
`re.search` calls are modelled by structurally recursive functions, the global
`game_state` dict becomes an explicit `GameState` value threaded through the
update functions, `random.choice` becomes an explicit index parameter, and the
external Gemini call inside `run_round` becomes an explicit `Option String`
reply parameter together with an `Env` record carrying SDK availability and
the two API-key environment variables.
-/

namespace AIJudge

/-- The global `game_state` dict of main.py, as an explicit record:
round number, both scores, and both one-time bomb flags. -/
@[ext]
structure GameState where
  round : Nat
  user_score : Nat
  bot_score : Nat
  user_bomb_used : Bool
  bot_bomb_used : Bool
deriving DecidableEq

/-- Initial value of `game_state` (main.py lines 21-27). -/
def game_state : GameState := ⟨1, 0, 0, false, false⟩

/-- Python `str.strip()` on a character list: drop whitespace from both ends. -/
def pyStrip (cs : List Char) : List Char :=
  ((cs.dropWhile Char.isWhitespace).reverse.dropWhile Char.isWhitespace).reverse

/-- Python `str.split(sep)` for a one-character separator: split on every
occurrence, keeping empty pieces (so the empty string yields `[[]]`). -/
def splitOnCh (sep : Char) : List Char → List (List Char)
  | [] => [[]]
  | c :: rest =>
    if c = sep then [] :: splitOnCh sep rest
    else
      match splitOnCh sep rest with
      | [] => [[c]]
      | h :: t => (c :: h) :: t

/-- Python `needle in hay` substring test. -/
def containsSub : List Char → List Char → Bool
  | [], needle => needle.isEmpty
  | c :: t, needle => needle.isPrefixOf (c :: t) || containsSub t needle

/-- Decimal value of a digit run, as computed by Python `int` on the match. -/
def digitsToNat (ds : List Char) : Nat :=
  ds.foldl (fun n c => n * 10 + (c.toNat - 48)) 0

/-- Model of `re.search(label + r"\s*(\d+)", text)` for a literal label:
leftmost position where the label matches and, after skipping whitespace, at
least one digit follows; returns the maximal digit run's value. -/
def searchNum (label : List Char) : List Char → Option Nat
  | [] => none
  | c :: t =>
    if label.isPrefixOf (c :: t) then
      let ds := (((c :: t).drop label.length).dropWhile Char.isWhitespace).takeWhile Char.isDigit
      if ds.isEmpty then searchNum label t
      else some (digitsToNat ds)
    else searchNum label t

/-- Python `line.split(":")[-1].strip()`: value after the last colon, trimmed
(main.py lines 71 and 73). -/
def extractValue (line : List Char) : List Char :=
  pyStrip ((splitOnCh ':' line).getLastD [])

/-- `response_text.strip().split("\n")` (main.py line 55). -/
def parseLines (response_text : String) : List (List Char) :=
  splitOnCh '\n' (pyStrip response_text.data)

/-- First loop of `update_state_from_response` (main.py lines 57-64): the
first line containing `Round Result:` decides the increment; `User wins`
beats `Bot wins`; the loop breaks after the first matching line. -/
def applyRoundResult (lines : List (List Char)) (s : GameState) : GameState :=
  match lines.find? (fun line => containsSub line ("Round Result:".data)) with
  | none => s
  | some line =>
    if containsSub line ("User wins".data) then { s with user_score := s.user_score + 1 }
    else if containsSub line ("Bot wins".data) then { s with bot_score := s.bot_score + 1 }
    else s

/-- One iteration of the second loop (main.py lines 69-73): a line carrying
`Move Status:` overwrites the status accumulator, a line carrying
`User Move:` overwrites the interpreted-move accumulator. -/
def moveFieldStep (acc : List Char × List Char) (line : List Char) : List Char × List Char :=
  (if containsSub line ("Move Status:".data) then (extractValue line).map Char.toUpper else acc.1,
   if containsSub line ("User Move:".data) then (extractValue line).map Char.toLower else acc.2)

/-- The second loop of `update_state_from_response` (main.py lines 67-73):
scan all lines, starting from empty strings, each hit overwriting. -/
def scanMoveFields (lines : List (List Char)) : List Char × List Char :=
  lines.foldl moveFieldStep ([], [])

/-- Bomb-usage section (main.py lines 66-77): set the user flag when the
scanned status is `VALID` and the scanned move is `bomb`; set the bot flag
when the locally chosen bot move was `bomb`. -/
def applyBombUsage (lines : List (List Char)) (bot_move : String) (s : GameState) : GameState :=
  let s1 :=
    if (scanMoveFields lines).1 = ("VALID".data) ∧ (scanMoveFields lines).2 = ("bomb".data) then
      { s with user_bomb_used := true }
    else s
  if bot_move = ("bomb" : String) then { s1 with bot_bomb_used := true } else s1

/-- Score-sync loop (main.py lines 80-89): stop at the first line that
contains `Updated Score:` and has at least two further lines after it; search
the joined tail for `User:`/`Bot:` numbers; accept only when both are found.
A line containing the label but lacking two further lines is skipped, exactly
as in the source (the `break` sits inside the `if`). -/
def syncScores : List (List Char) → Option (Nat × Nat)
  | [] => none
  | line :: tail =>
    if containsSub line ("Updated Score:".data) ∧ 2 ≤ tail.length then
      match searchNum ("User:".data) (List.intercalate ['\n'] (line :: tail)),
            searchNum ("Bot:".data) (List.intercalate ['\n'] (line :: tail)) with
      | some u, some b => some (u, b)
      | _, _ => none
    else syncScores tail

/-- Applying the accepted sync pair, if any (main.py lines 86-88). -/
def applySync (lines : List (List Char)) (s : GameState) : GameState :=
  match syncScores lines with
  | some p => { s with user_score := p.1, bot_score := p.2 }
  | none => s

/-- `update_state_from_response` (main.py lines 49-91): round-result
increment, bomb-usage flags, optional authoritative score sync, then the
unconditional round advance. -/
def update_state_from_response (response_text : String) (bot_move : String) (s : GameState) : GameState :=
  let lines := parseLines response_text
  let s3 := applySync lines (applyBombUsage lines bot_move (applyRoundResult lines s))
  { s3 with round := s3.round + 1 }

/-- The `MOVES` list (main.py line 19). -/
def MOVES : List String := ["rock", "paper", "scissors", "bomb"]

/-- `get_bot_move` (main.py lines 42-46), with `random.choice` modelled by an
explicit index reduced modulo the candidate-list length. -/
def get_bot_move (bot_bomb_used : Bool) (r : Nat) : String :=
  if bot_bomb_used then (["rock", "paper", "scissors"] : List String).getD (r % 3) ("rock")
  else MOVES.getD (r % 4) ("rock")

/-- Python truthiness of an optional environment string: present and
non-empty. -/
def truthy : Option String → Bool
  | none => false
  | some s => !s.isEmpty

/-- Process environment seen by `run_round`: whether `google.genai` imports,
and the two API-key environment variables. -/
structure Env where
  sdk_available : Bool
  gemini_key : Option String
  google_key : Option String

/-- Message returned when the Gemini SDK import fails (main.py lines 100-103). -/
def sdkErrorMsg : String :=
  "Error: Install the Gemini SDK: pip install google-genai\nSet GEMINI_API_KEY in your environment (get key from https://aistudio.google.com/apikey)."

/-- Message returned when no API key is set (main.py line 107). -/
def keyErrorMsg : String :=
  "Error: Set GEMINI_API_KEY in your environment (get key from https://aistudio.google.com/apikey)."

/-- Fallback text when the model reply is falsy (main.py line 130). -/
def noTextMsg : String := "(No text in response)"

/-- `run_round` (main.py lines 94-133). The network call is abstracted into
the `reply` argument (`none` or empty = falsy `response.text`), the randomly
chosen bot move into `bot_move`, and prompt loading/formatting — pure string
work feeding only the external judge — is elided. Both unavailable-oracle
paths return an error string before any state is touched. -/
def run_round (env : Env) (reply : Option String) (bot_move : String) (s : GameState) : String × GameState :=
  if env.sdk_available = false then (sdkErrorMsg, s)
  else if (truthy env.gemini_key || truthy env.google_key) = false then (keyErrorMsg, s)
  else
    let response_text :=
      match reply with
      | none => noTextMsg
      | some t => if t.isEmpty then noTextMsg else t
    (response_text, update_state_from_response response_text bot_move s)

/-- The interactive loop of `main` restricted to state evolution: one
`run_round` per user input, keeping only the state component. -/
def playRounds (env : Env) (rounds : List (Option String × String)) (s : GameState) : GameState :=
  rounds.foldl (fun st r => (run_round env r.1 r.2 st).2) s

/-! ### Helper lemmas about the individual passes -/

theorem applyRoundResult_other (lines : List (List Char)) (s : GameState) :
    (applyRoundResult lines s).round = s.round ∧
    (applyRoundResult lines s).user_bomb_used = s.user_bomb_used ∧
    (applyRoundResult lines s).bot_bomb_used = s.bot_bomb_used := by
  unfold applyRoundResult
  cases lines.find? (fun line => containsSub line ("Round Result:".data)) with
  | none => exact ⟨rfl, rfl, rfl⟩
  | some line =>
    dsimp only
    split_ifs <;> exact ⟨rfl, rfl, rfl⟩

theorem applyBombUsage_scores (lines : List (List Char)) (mv : String) (s : GameState) :
    (applyBombUsage lines mv s).user_score = s.user_score ∧
    (applyBombUsage lines mv s).bot_score = s.bot_score ∧
    (applyBombUsage lines mv s).round = s.round := by
  unfold applyBombUsage
  split_ifs <;> exact ⟨rfl, rfl, rfl⟩

theorem applyBombUsage_user_flag (lines : List (List Char)) (mv : String) (s : GameState) :
    (applyBombUsage lines mv s).user_bomb_used =
      if (scanMoveFields lines).1 = ("VALID".data) ∧ (scanMoveFields lines).2 = ("bomb".data) then
        true
      else s.user_bomb_used := by
  unfold applyBombUsage
  split_ifs <;> rfl

theorem applyBombUsage_bot_flag (lines : List (List Char)) (mv : String) (s : GameState) :
    (applyBombUsage lines mv s).bot_bomb_used =
      if mv = ("bomb" : String) then true else s.bot_bomb_used := by
  unfold applyBombUsage
  split_ifs <;> rfl

theorem applySync_other (lines : List (List Char)) (s : GameState) :
    (applySync lines s).round = s.round ∧
    (applySync lines s).user_bomb_used = s.user_bomb_used ∧
    (applySync lines s).bot_bomb_used = s.bot_bomb_used := by
  unfold applySync
  cases syncScores lines with
  | none => exact ⟨rfl, rfl, rfl⟩
  | some p => exact ⟨rfl, rfl, rfl⟩

/-- Characterization of the final scores: the accepted sync pair when there
is one, otherwise the scores produced by the round-result increment. -/
theorem update_scores_eq (resp mv : String) (s : GameState) :
    ((update_state_from_response resp mv s).user_score,
     (update_state_from_response resp mv s).bot_score) =
      match syncScores (parseLines resp) with
      | some p => p
      | none =>
        ((applyRoundResult (parseLines resp) s).user_score,
         (applyRoundResult (parseLines resp) s).bot_score) := by
  have hb := applyBombUsage_scores (parseLines resp) mv (applyRoundResult (parseLines resp) s)
  simp only [update_state_from_response, applySync]
  cases h : syncScores (parseLines resp) with
  | some p => rfl
  | none =>
    dsimp only
    rw [hb.1, hb.2.1]

theorem update_round_eq (resp mv : String) (s : GameState) :
    (update_state_from_response resp mv s).round = s.round + 1 := by
  unfold update_state_from_response
  have h1 := applySync_other (parseLines resp)
    (applyBombUsage (parseLines resp) mv (applyRoundResult (parseLines resp) s))
  have h2 := applyBombUsage_scores (parseLines resp) mv (applyRoundResult (parseLines resp) s)
  have h3 := applyRoundResult_other (parseLines resp) s
  show (applySync _ (applyBombUsage _ mv (applyRoundResult _ s))).round + 1 = s.round + 1
  rw [h1.1, h2.2.2, h3.1]

theorem update_user_flag_eq (resp mv : String) (s : GameState) :
    (update_state_from_response resp mv s).user_bomb_used =
      if (scanMoveFields (parseLines resp)).1 = ("VALID".data) ∧
          (scanMoveFields (parseLines resp)).2 = ("bomb".data) then true
      else s.user_bomb_used := by
  unfold update_state_from_response
  have h1 := applySync_other (parseLines resp)
    (applyBombUsage (parseLines resp) mv (applyRoundResult (parseLines resp) s))
  have h2 := applyBombUsage_user_flag (parseLines resp) mv (applyRoundResult (parseLines resp) s)
  have h3 := applyRoundResult_other (parseLines resp) s
  show (applySync _ (applyBombUsage _ mv (applyRoundResult _ s))).user_bomb_used = _
  rw [h1.2.1, h2, h3.2.1]

theorem update_bot_flag_eq (resp mv : String) (s : GameState) :
    (update_state_from_response resp mv s).bot_bomb_used =
      if mv = ("bomb" : String) then true else s.bot_bomb_used := by
  unfold update_state_from_response
  have h1 := applySync_other (parseLines resp)
    (applyBombUsage (parseLines resp) mv (applyRoundResult (parseLines resp) s))
  have h2 := applyBombUsage_bot_flag (parseLines resp) mv (applyRoundResult (parseLines resp) s)
  have h3 := applyRoundResult_other (parseLines resp) s
  show (applySync _ (applyBombUsage _ mv (applyRoundResult _ s))).bot_bomb_used = _
  rw [h1.2.2, h2, h3.2.2]

/-- Reading the round-result pass through the first matching line. -/
theorem applyRoundResult_eq (lines : List (List Char)) (s : GameState) (line : List Char)
    (hfind : lines.find? (fun l => containsSub l ("Round Result:".data)) = some line) :
    applyRoundResult lines s =
      if containsSub line ("User wins".data) then { s with user_score := s.user_score + 1 }
      else if containsSub line ("Bot wins".data) then { s with bot_score := s.bot_score + 1 }
      else s := by
  unfold applyRoundResult
  rw [hfind]

/-! ### Claims -/

/-- C1: when the score-sync scan accepts a `User:`/`Bot:` pair below the
accepted `Updated Score:` line, the final scores equal exactly that pair,
overwriting any round-result increment; when it accepts no pair, the scores
are exactly those left by the round-result increment pass. -/
theorem sync_pair_overrides_scores (resp bot_move : String) (s : GameState) :
    (∀ u b, syncScores (parseLines resp) = some (u, b) →
      (update_state_from_response resp bot_move s).user_score = u ∧
      (update_state_from_response resp bot_move s).bot_score = b) ∧
    (syncScores (parseLines resp) = none →
      (update_state_from_response resp bot_move s).user_score =
        (applyRoundResult (parseLines resp) s).user_score ∧
      (update_state_from_response resp bot_move s).bot_score =
        (applyRoundResult (parseLines resp) s).bot_score) := by
  constructor
  · intro u b h
    have hs := update_scores_eq resp bot_move s
    rw [h] at hs
    exact ⟨congrArg Prod.fst hs, congrArg Prod.snd hs⟩
  · intro h
    have hs := update_scores_eq resp bot_move s
    rw [h] at hs
    exact ⟨congrArg Prod.fst hs, congrArg Prod.snd hs⟩

/-- Witness for C1 on a concrete reply carrying both an increment and an
authoritative pair. -/
theorem sync_pair_overrides_scores_witness :
    (update_state_from_response ("Round Result: User wins\nUpdated Score:\nUser: 3\nBot: 2")
      ("rock") game_state).user_score = 3 ∧
    (update_state_from_response ("Round Result: User wins\nUpdated Score:\nUser: 3\nBot: 2")
      ("rock") game_state).bot_score = 2 :=
  (sync_pair_overrides_scores ("Round Result: User wins\nUpdated Score:\nUser: 3\nBot: 2")
    ("rock") game_state).1 3 2 (by decide)

/-- C2: with no accepted sync pair, the first `Round Result:` line decides a
one-point increment — `User wins` bumps the user score, else `Bot wins` bumps
the bot score, else neither score changes. -/
theorem round_result_first_line (resp bot_move : String) (s : GameState) (line : List Char)
    (hfind : (parseLines resp).find? (fun l => containsSub l ("Round Result:".data)) = some line)
    (hsync : syncScores (parseLines resp) = none) :
    (containsSub line ("User wins".data) = true →
      (update_state_from_response resp bot_move s).user_score = s.user_score + 1 ∧
      (update_state_from_response resp bot_move s).bot_score = s.bot_score) ∧
    (containsSub line ("User wins".data) = false →
      containsSub line ("Bot wins".data) = true →
      (update_state_from_response resp bot_move s).bot_score = s.bot_score + 1 ∧
      (update_state_from_response resp bot_move s).user_score = s.user_score) ∧
    (containsSub line ("User wins".data) = false →
      containsSub line ("Bot wins".data) = false →
      (update_state_from_response resp bot_move s).user_score = s.user_score ∧
      (update_state_from_response resp bot_move s).bot_score = s.bot_score) := by
  have hs := update_scores_eq resp bot_move s
  rw [hsync] at hs
  have hu : (update_state_from_response resp bot_move s).user_score =
      (applyRoundResult (parseLines resp) s).user_score := congrArg Prod.fst hs
  have hb : (update_state_from_response resp bot_move s).bot_score =
      (applyRoundResult (parseLines resp) s).bot_score := congrArg Prod.snd hs
  have hAR := applyRoundResult_eq (parseLines resp) s line hfind
  refine ⟨?_, ?_, ?_⟩
  · intro h1
    rw [hu, hb, hAR]
    simp [h1]
  · intro h1 h2
    rw [hb, hu, hAR]
    simp [h1, h2]
  · intro h1 h2
    rw [hu, hb, hAR]
    simp [h1, h2]

/-- Witness for C2 on a concrete `User wins` reply. -/
theorem round_result_first_line_witness :
    (update_state_from_response ("Round Result: User wins") ("rock") game_state).user_score =
      game_state.user_score + 1 ∧
    (update_state_from_response ("Round Result: User wins") ("rock") game_state).bot_score =
      game_state.bot_score :=
  (round_result_first_line ("Round Result: User wins") ("rock") game_state
    ("Round Result: User wins".data) (by decide) (by decide)).1 (by decide)

/-- C3: the parser/update is a total function, and on the empty reply the
only changes are the unconditional round advance and (when the bot's chosen
move was `bomb`) the bot-special flag. -/
theorem empty_reply_round_and_botflag_only (bot_move : String) (s : GameState) :
    update_state_from_response ("") bot_move s =
      { s with round := s.round + 1,
               bot_bomb_used := if bot_move = ("bomb" : String) then true else s.bot_bomb_used } := by
  have h1 := update_round_eq ("") bot_move s
  have h2 := update_scores_eq ("") bot_move s
  have h3 := update_user_flag_eq ("") bot_move s
  have h4 := update_bot_flag_eq ("") bot_move s
  have hsync : syncScores (parseLines ("")) = none := by decide
  have hfind : applyRoundResult (parseLines ("")) s = s := by
    unfold applyRoundResult
    have h : (parseLines ("")).find? (fun l => containsSub l ("Round Result:".data)) = none := by
      decide
    rw [h]
  rw [hsync, hfind] at h2
  have hcond : ¬((scanMoveFields (parseLines (""))).1 = ("VALID".data) ∧
      (scanMoveFields (parseLines (""))).2 = ("bomb".data)) := by decide
  rw [if_neg hcond] at h3
  apply GameState.ext
  · exact h1
  · exact congrArg Prod.fst h2
  · exact congrArg Prod.snd h2
  · exact h3
  · exact h4

/-- One successful `run_round` advances the round counter by one. -/
theorem run_round_state_round (env : Env) (hsdk : env.sdk_available = true)
    (hkey : (truthy env.gemini_key || truthy env.google_key) = true)
    (r : Option String × String) (t : GameState) :
    ((run_round env r.1 r.2 t).2).round = t.round + 1 := by
  simp only [run_round, hsdk, hkey]
  simp only [Bool.true_eq_false, if_false, ite_false, if_neg, reduceIte]
  exact update_round_eq _ _ _

theorem playRounds_round_aux (env : Env) (hsdk : env.sdk_available = true)
    (hkey : (truthy env.gemini_key || truthy env.google_key) = true) :
    ∀ (rounds : List (Option String × String)) (s : GameState),
      (playRounds env rounds s).round = s.round + rounds.length := by
  intro rounds
  induction rounds with
  | nil => intro s; rfl
  | cons r rs ih =>
    intro s
    have hstep : playRounds env (r :: rs) s = playRounds env rs ((run_round env r.1 r.2 s).2) :=
      rfl
    rw [hstep, ih, run_round_state_round env hsdk hkey r s]
    simp [List.length_cons]
    omega

/-- C4: the round counter advances by exactly one on every state update, and
after N played rounds from the initial state it equals N + 1, whatever the
replies were. -/
theorem round_counter_advances (resp bot_move : String) (s : GameState) (env : Env)
    (rounds : List (Option String × String))
    (hsdk : env.sdk_available = true)
    (hkey : (truthy env.gemini_key || truthy env.google_key) = true) :
    (update_state_from_response resp bot_move s).round = s.round + 1 ∧
    (playRounds env rounds game_state).round = rounds.length + 1 := by
  refine ⟨update_round_eq resp bot_move s, ?_⟩
  rw [playRounds_round_aux env hsdk hkey rounds game_state]
  show 1 + rounds.length = rounds.length + 1
  omega

/-- Witness for C4 on two concrete rounds (one empty reply). -/
theorem round_counter_advances_witness :
    (update_state_from_response ("") ("rock") game_state).round = game_state.round + 1 ∧
    (playRounds ⟨true, some ("k"), none⟩ [(some ("x"), ("rock")), (none, ("paper"))]
      game_state).round = [(some ("x"), ("rock")), (none, ("paper"))].length + 1 :=
  round_counter_advances ("") ("rock") game_state ⟨true, some ("k"), none⟩
    [(some ("x"), ("rock")), (none, ("paper"))] (by decide) (by decide)

theorem update_user_flag_mono (resp mv : String) (s : GameState) (h : s.user_bomb_used = true) :
    (update_state_from_response resp mv s).user_bomb_used = true := by
  rw [update_user_flag_eq]
  split_ifs
  · rfl
  · exact h

theorem update_bot_flag_mono (resp mv : String) (s : GameState) (h : s.bot_bomb_used = true) :
    (update_state_from_response resp mv s).bot_bomb_used = true := by
  rw [update_bot_flag_eq]
  split_ifs
  · rfl
  · exact h

theorem run_round_user_flag_mono (env : Env) (reply : Option String) (mv : String) (t : GameState)
    (h : t.user_bomb_used = true) : ((run_round env reply mv t).2).user_bomb_used = true := by
  unfold run_round
  split_ifs
  · exact h
  · exact h
  · exact update_user_flag_mono _ _ _ h

theorem run_round_bot_flag_mono (env : Env) (reply : Option String) (mv : String) (t : GameState)
    (h : t.bot_bomb_used = true) : ((run_round env reply mv t).2).bot_bomb_used = true := by
  unfold run_round
  split_ifs
  · exact h
  · exact h
  · exact update_bot_flag_mono _ _ _ h

theorem playRounds_user_flag_mono (env : Env) :
    ∀ (rounds : List (Option String × String)) (s : GameState),
      s.user_bomb_used = true → (playRounds env rounds s).user_bomb_used = true := by
  intro rounds
  induction rounds with
  | nil => intro s h; exact h
  | cons r rs ih =>
    intro s h
    exact ih ((run_round env r.1 r.2 s).2) (run_round_user_flag_mono env r.1 r.2 s h)

theorem playRounds_bot_flag_mono (env : Env) :
    ∀ (rounds : List (Option String × String)) (s : GameState),
      s.bot_bomb_used = true → (playRounds env rounds s).bot_bomb_used = true := by
  intro rounds
  induction rounds with
  | nil => intro s h; exact h
  | cons r rs ih =>
    intro s h
    exact ih ((run_round env r.1 r.2 s).2) (run_round_bot_flag_mono env r.1 r.2 s h)

/-- C5: the two special-move flags are monotonic — once true, they remain
true after any single update and along any further sequence of rounds; no
operation clears them. -/
theorem bomb_flags_monotone (resp bot_move : String) (s : GameState) (env : Env)
    (rounds : List (Option String × String)) :
    (s.user_bomb_used = true → (update_state_from_response resp bot_move s).user_bomb_used = true) ∧
    (s.bot_bomb_used = true → (update_state_from_response resp bot_move s).bot_bomb_used = true) ∧
    (s.user_bomb_used = true → (playRounds env rounds s).user_bomb_used = true) ∧
    (s.bot_bomb_used = true → (playRounds env rounds s).bot_bomb_used = true) :=
  ⟨update_user_flag_mono resp bot_move s, update_bot_flag_mono resp bot_move s,
   playRounds_user_flag_mono env rounds s, playRounds_bot_flag_mono env rounds s⟩

/-- Witness for C5 starting from a state with both flags already set. -/
theorem bomb_flags_monotone_witness :
    (update_state_from_response ("") ("rock") ⟨1, 0, 0, true, true⟩).user_bomb_used = true ∧
    (playRounds ⟨false, none, none⟩ [(none, ("rock"))] ⟨1, 0, 0, true, true⟩).bot_bomb_used =
      true :=
  ⟨(bomb_flags_monotone ("") ("rock") ⟨1, 0, 0, true, true⟩ ⟨false, none, none⟩
      [(none, ("rock"))]).1 rfl,
   (bomb_flags_monotone ("") ("rock") ⟨1, 0, 0, true, true⟩ ⟨false, none, none⟩
      [(none, ("rock"))]).2.2.2 rfl⟩

/-- C6: starting from an unset flag, the user-special flag becomes true
exactly when the scanned `Move Status:` value (uppercased) is `VALID` and the
scanned `User Move:` value (lowercased) is `bomb`. -/
theorem user_special_flag_iff (resp bot_move : String) (s : GameState)
    (h : s.user_bomb_used = false) :
    ((update_state_from_response resp bot_move s).user_bomb_used = true ↔
      ((scanMoveFields (parseLines resp)).1 = ("VALID".data) ∧
       (scanMoveFields (parseLines resp)).2 = ("bomb".data))) := by
  rw [update_user_flag_eq]
  split_ifs with hc
  · simp [hc]
  · simp [h, hc]

/-- Witness for C6: `VALID` sets the flag, `INVALID` does not, even with a
`User Move: bomb` line present. -/
theorem user_special_flag_iff_witness :
    (update_state_from_response ("Move Status: VALID\nUser Move: bomb") ("rock")
      game_state).user_bomb_used = true ∧
    (update_state_from_response ("Move Status: INVALID\nUser Move: bomb") ("rock")
      game_state).user_bomb_used = false := by
  constructor
  · exact (user_special_flag_iff ("Move Status: VALID\nUser Move: bomb") ("rock") game_state
      rfl).2 (by decide)
  · cases hb : (update_state_from_response ("Move Status: INVALID\nUser Move: bomb") ("rock")
        game_state).user_bomb_used with
    | false => rfl
    | true =>
      exfalso
      have hc := (user_special_flag_iff ("Move Status: INVALID\nUser Move: bomb") ("rock")
        game_state rfl).1 hb
      revert hc
      decide

theorem syncScores_cons (line : List Char) (tail : List (List Char)) :
    syncScores (line :: tail) =
      if containsSub line ("Updated Score:".data) ∧ 2 ≤ tail.length then
        match searchNum ("User:".data) (List.intercalate ['\n'] (line :: tail)),
              searchNum ("Bot:".data) (List.intercalate ['\n'] (line :: tail)) with
        | some u, some b => some (u, b)
        | _, _ => none
      else syncScores tail := by
  simp only [syncScores]

theorem syncScores_short (ls : List (List Char)) (h : ls.length ≤ 2) : syncScores ls = none := by
  induction ls with
  | nil => rfl
  | cons line tail ih =>
    have hlen : tail.length ≤ 1 := by
      simp only [List.length_cons] at h
      omega
    rw [syncScores_cons, if_neg]
    · exact ih (by omega)
    · rintro ⟨-, h2⟩
      omega

theorem syncScores_skip (l₁ rest : List (List Char))
    (hno : ∀ l ∈ l₁, containsSub l ("Updated Score:".data) = false) :
    syncScores (l₁ ++ rest) = syncScores rest := by
  induction l₁ with
  | nil => rfl
  | cons x t ih =>
    have hx : containsSub x ("Updated Score:".data) = false := hno x (by simp)
    show syncScores (x :: (t ++ rest)) = syncScores rest
    rw [syncScores_cons, if_neg]
    · exact ih (fun l hl => hno l (by simp [hl]))
    · rintro ⟨h1, -⟩
      rw [hx] at h1
      exact Bool.false_ne_true h1

/-- C7: the score sync is decided by the first line carrying
`Updated Score:` — when fewer than two lines follow it the whole mechanism
yields nothing (later occurrences are never used), and when at least two
lines follow it the result depends only on that line and its tail. -/
theorem sync_first_label_line_only (l₁ l₂ : List (List Char)) (line : List Char)
    (hno : ∀ l ∈ l₁, containsSub l ("Updated Score:".data) = false)
    (hline : containsSub line ("Updated Score:".data) = true) :
    (l₂.length < 2 → syncScores (l₁ ++ line :: l₂) = none) ∧
    (2 ≤ l₂.length →
      syncScores (l₁ ++ line :: l₂) =
        match searchNum ("User:".data) (List.intercalate ['\n'] (line :: l₂)),
              searchNum ("Bot:".data) (List.intercalate ['\n'] (line :: l₂)) with
        | some u, some b => some (u, b)
        | _, _ => none) := by
  constructor
  · intro hlen
    rw [syncScores_skip l₁ (line :: l₂) hno]
    have h1 : syncScores (line :: l₂) = syncScores l₂ := by
      rw [syncScores_cons, if_neg]
      rintro ⟨-, h2⟩
      omega
    rw [h1]
    exact syncScores_short l₂ (by omega)
  · intro hlen
    rw [syncScores_skip l₁ (line :: l₂) hno]
    rw [syncScores_cons, if_pos ⟨hline, hlen⟩]

/-- Witness for C7: an accepted first label line, and a rejected one with
only one following line. -/
theorem sync_first_label_line_only_witness :
    syncScores [("before".data), ("Updated Score:".data), ("User: 4".data), ("Bot: 1".data)] =
      some (4, 1) ∧
    syncScores [("Updated Score:".data), ("x".data)] = none := by
  constructor
  · have h := (sync_first_label_line_only [("before".data)]
      [("User: 4".data), ("Bot: 1".data)] ("Updated Score:".data) (by decide) (by decide)).2
      (by decide)
    exact h.trans (by decide)
  · exact (sync_first_label_line_only [] [("x".data)] ("Updated Score:".data) (by decide)
      (by decide)).1 (by decide)

/-- C8: with the bot flag set, the selector never yields `bomb` and picks
among the three plain moves; with it unset, every one of the four moves is
reachable. -/
theorem get_bot_move_safe (r : Nat) :
    (get_bot_move true r ≠ ("bomb" : String) ∧
      get_bot_move true r ∈ (["rock", "paper", "scissors"] : List String)) ∧
    get_bot_move false r ∈ MOVES ∧
    (∀ m ∈ MOVES, ∃ k, get_bot_move false k = m) := by
  refine ⟨?_, ?_, ?_⟩
  · have h3 : r % 3 = 0 ∨ r % 3 = 1 ∨ r % 3 = 2 := by omega
    rcases h3 with h | h | h <;> simp [get_bot_move, h]
  · have h4 : r % 4 = 0 ∨ r % 4 = 1 ∨ r % 4 = 2 ∨ r % 4 = 3 := by omega
    rcases h4 with h | h | h | h <;> simp [get_bot_move, MOVES, h]
  · intro m hm
    simp only [MOVES] at hm
    fin_cases hm
    · exact ⟨0, rfl⟩
    · exact ⟨1, rfl⟩
    · exact ⟨2, rfl⟩
    · exact ⟨3, rfl⟩

/-- Witness for C8 at a concrete index. -/
theorem get_bot_move_safe_witness :
    get_bot_move true 5 ≠ ("bomb" : String) ∧
    get_bot_move false 5 ∈ MOVES ∧
    (∃ k, get_bot_move false k = ("bomb" : String)) :=
  ⟨(get_bot_move_safe 5).1.1, (get_bot_move_safe 5).2.1,
   (get_bot_move_safe 5).2.2 ("bomb") (by decide)⟩

/-- C9: when the SDK is missing or no API key is truthy, `run_round` returns
one of the two human-readable error strings and leaves the state untouched. -/
theorem oracle_unavailable_no_mutation (env : Env) (reply : Option String) (bot_move : String)
    (s : GameState)
    (h : env.sdk_available = false ∨
      (truthy env.gemini_key = false ∧ truthy env.google_key = false)) :
    (run_round env reply bot_move s).2 = s ∧
    ((run_round env reply bot_move s).1 = sdkErrorMsg ∨
     (run_round env reply bot_move s).1 = keyErrorMsg) := by
  unfold run_round
  rcases h with h | ⟨h1, h2⟩
  · rw [if_pos h]
    exact ⟨rfl, Or.inl rfl⟩
  · by_cases hs : env.sdk_available = false
    · rw [if_pos hs]
      exact ⟨rfl, Or.inl rfl⟩
    · rw [if_neg hs, if_pos (show (truthy env.gemini_key || truthy env.google_key) = false by
        rw [h1, h2]; rfl)]
      exact ⟨rfl, Or.inr rfl⟩

/-- Witness for C9: SDK present but only an empty-string key set. -/
theorem oracle_unavailable_no_mutation_witness :
    (run_round ⟨true, none, some ("")⟩ (some ("Round Result: User wins")) ("rock")
      game_state).2 = game_state ∧
    ((run_round ⟨true, none, some ("")⟩ (some ("Round Result: User wins")) ("rock")
        game_state).1 = sdkErrorMsg ∨
     (run_round ⟨true, none, some ("")⟩ (some ("Round Result: User wins")) ("rock")
        game_state).1 = keyErrorMsg) :=
  oracle_unavailable_no_mutation ⟨true, none, some ("")⟩ (some ("Round Result: User wins"))
    ("rock") game_state (Or.inr ⟨by decide, rfl⟩)

theorem scan_fst_no_label (l : List (List Char)) :
    ∀ acc : List Char × List Char,
      (∀ x ∈ l, containsSub x ("Move Status:".data) = false) →
      (l.foldl moveFieldStep acc).1 = acc.1 := by
  induction l with
  | nil => intro acc _; rfl
  | cons x t ih =>
    intro acc h
    have hx : containsSub x ("Move Status:".data) = false := h x (by simp)
    show (t.foldl moveFieldStep (moveFieldStep acc x)).1 = acc.1
    rw [ih (moveFieldStep acc x) (fun y hy => h y (by simp [hy]))]
    unfold moveFieldStep
    dsimp only
    rw [if_neg]
    simp [hx]

theorem scan_snd_no_label (l : List (List Char)) :
    ∀ acc : List Char × List Char,
      (∀ x ∈ l, containsSub x ("User Move:".data) = false) →
      (l.foldl moveFieldStep acc).2 = acc.2 := by
  induction l with
  | nil => intro acc _; rfl
  | cons x t ih =>
    intro acc h
    have hx : containsSub x ("User Move:".data) = false := h x (by simp)
    show (t.foldl moveFieldStep (moveFieldStep acc x)).2 = acc.2
    rw [ih (moveFieldStep acc x) (fun y hy => h y (by simp [hy]))]
    unfold moveFieldStep
    dsimp only
    rw [if_neg]
    simp [hx]

/-- C10: when several lines carry `Move Status:` (resp. `User Move:`), the
value retained by the scan is the one extracted from the last such line. -/
theorem move_fields_last_occurrence (a₁ a₂ b₁ b₂ : List (List Char)) (aline bline : List Char)
    (ha : containsSub aline ("Move Status:".data) = true)
    (ha2 : ∀ l ∈ a₂, containsSub l ("Move Status:".data) = false)
    (hb : containsSub bline ("User Move:".data) = true)
    (hb2 : ∀ l ∈ b₂, containsSub l ("User Move:".data) = false) :
    (scanMoveFields (a₁ ++ aline :: a₂)).1 = (extractValue aline).map Char.toUpper ∧
    (scanMoveFields (b₁ ++ bline :: b₂)).2 = (extractValue bline).map Char.toLower := by
  constructor
  · unfold scanMoveFields
    rw [List.foldl_append]
    show (a₂.foldl moveFieldStep (moveFieldStep (a₁.foldl moveFieldStep ([], [])) aline)).1 = _
    rw [scan_fst_no_label a₂ (moveFieldStep (a₁.foldl moveFieldStep ([], [])) aline) ha2]
    unfold moveFieldStep
    dsimp only
    rw [if_pos ha]
  · unfold scanMoveFields
    rw [List.foldl_append]
    show (b₂.foldl moveFieldStep (moveFieldStep (b₁.foldl moveFieldStep ([], [])) bline)).2 = _
    rw [scan_snd_no_label b₂ (moveFieldStep (b₁.foldl moveFieldStep ([], [])) bline) hb2]
    unfold moveFieldStep
    dsimp only
    rw [if_pos hb]

/-- Witness for C10: duplicate labels, the later occurrence wins. -/
theorem move_fields_last_occurrence_witness :
    (scanMoveFields [("Move Status: INVALID".data), ("Move Status: valid".data),
      ("User Move: ROCK".data), ("User Move: Bomb".data)]).1 = ("VALID".data) ∧
    (scanMoveFields [("Move Status: INVALID".data), ("Move Status: valid".data),
      ("User Move: ROCK".data), ("User Move: Bomb".data)]).2 = ("bomb".data) := by
  have h := move_fields_last_occurrence [("Move Status: INVALID".data)]
    [("User Move: ROCK".data), ("User Move: Bomb".data)]
    [("Move Status: INVALID".data), ("Move Status: valid".data), ("User Move: ROCK".data)] []
    ("Move Status: valid".data) ("User Move: Bomb".data)
    (by decide) (by decide) (by decide) (by decide)
  exact ⟨h.1.trans (by decide), h.2.trans (by decide)⟩

end AIJudge
